import Mathlib

/-!
Verification of the Cloud Run finance-operations processor
(`cloud-run/finance-operations/main.py`).

The development shallowly embeds the job-processing pipeline of the
`/process` endpoint: request parsing, input download, script execution,
stdout metrics parsing, result upload, webhook notification, cleanup and
the outer exception handler.  External effects (Cloud Storage, the child
process, the HTTP webhook delivery, the filesystem) are modelled by an
explicit `World` oracle; the control flow, data flow and error handling
are translated statement by statement from the Python source.
-/

namespace FinOps

/-- Python `str.isspace` character class used by `str.strip()`:
space, tab, newline, carriage return, vertical tab, form feed. -/
def isPySpace (c : Char) : Bool :=
  c == ' ' || c == '\t' || c == '\n' || c == '\r' || c == Char.ofNat 11 || c == Char.ofNat 12

/-- Drop leading Python whitespace (the left half of `str.strip()`). -/
def stripLeftC (l : List Char) : List Char := l.dropWhile isPySpace

/-- Drop trailing Python whitespace (the right half of `str.strip()`). -/
def stripRightC (l : List Char) : List Char := (l.reverse.dropWhile isPySpace).reverse

/-- Python `str.strip()`: remove whitespace from both ends. -/
def stripC (l : List Char) : List Char := stripLeftC (stripRightC l)

/-- The characters after the last newline of `l`; this is exactly
Python `l.split(chr(10))[-1]`.  For a string with no newline it is the
whole string, for the empty string it is empty. -/
def lastLineC (l : List Char) : List Char :=
  (l.reverse.takeWhile (fun c => c != '\n')).reverse

/-- JSON values as produced by `json.loads`.  Numbers are modelled as
integers: the metrics records exchanged by this service use integer,
boolean and string fields, and no claim depends on fractional numbers. -/
inductive J where
  | null : J
  | bool (b : Bool) : J
  | num (n : Int) : J
  | str (s : List Char) : J
  | arr (elems : List J) : J
  | obj (fields : List (List Char × J)) : J

/-- Skip JSON/Python whitespace between tokens. -/
def skipWsC (l : List Char) : List Char := l.dropWhile isPySpace

/-- Accumulate a decimal digit run into a natural number. -/
def digitsToNat : List Char → Nat → Nat
  | [], acc => acc
  | c :: rest, acc => digitsToNat rest (acc * 10 + (c.toNat - 48))

/-- Parse a JSON number (integer form) from the head of the input. -/
def parseNum (l : List Char) : Option (J × List Char) :=
  match l with
  | '-' :: rest =>
      let ds := rest.takeWhile Char.isDigit
      if ds.isEmpty then none
      else some (.num (-(digitsToNat ds 0 : Int)), rest.dropWhile Char.isDigit)
  | _ =>
      let ds := l.takeWhile Char.isDigit
      if ds.isEmpty then none
      else some (.num (digitsToNat ds 0), l.dropWhile Char.isDigit)

/-- Parse the body of a JSON string literal (after the opening quote),
returning the decoded characters and the input after the closing quote.
The `\uXXXX` escape is outside the model. -/
def parseStringAux : List Char → List Char → Option (List Char × List Char)
  | acc, '"' :: rest => some (acc.reverse, rest)
  | acc, '\\' :: e :: rest =>
      match e with
      | '"' => parseStringAux ('"' :: acc) rest
      | '\\' => parseStringAux ('\\' :: acc) rest
      | '/' => parseStringAux ('/' :: acc) rest
      | 'n' => parseStringAux ('\n' :: acc) rest
      | 't' => parseStringAux ('\t' :: acc) rest
      | 'r' => parseStringAux ('\r' :: acc) rest
      | 'b' => parseStringAux (Char.ofNat 8 :: acc) rest
      | 'f' => parseStringAux (Char.ofNat 12 :: acc) rest
      | _ => none
  | acc, c :: rest => parseStringAux (c :: acc) rest
  | _, [] => none

mutual

/-- Parse one JSON value from the head of the input, returning the value
and the remaining input.  Fuel bounds the recursion depth. -/
def parseValue : Nat → List Char → Option (J × List Char)
  | 0, _ => none
  | f + 1, l =>
    match l with
    | 'n' :: 'u' :: 'l' :: 'l' :: rest => some (.null, rest)
    | 't' :: 'r' :: 'u' :: 'e' :: rest => some (.bool true, rest)
    | 'f' :: 'a' :: 'l' :: 's' :: 'e' :: rest => some (.bool false, rest)
    | '"' :: rest => (parseStringAux [] rest).map (fun p => (.str p.1, p.2))
    | '{' :: rest =>
        match skipWsC rest with
        | '}' :: r2 => some (.obj [], r2)
        | r1 => parseMembers f r1 []
    | '[' :: rest =>
        match skipWsC rest with
        | ']' :: r2 => some (.arr [], r2)
        | r1 => parseElems f r1 []
    | c :: rest => if c.isDigit || c == '-' then parseNum (c :: rest) else none
    | [] => none

/-- Parse the members of a JSON object, positioned at a key. -/
def parseMembers : Nat → List Char → List (List Char × J) → Option (J × List Char)
  | 0, _, _ => none
  | f + 1, l, acc =>
    match l with
    | '"' :: rest =>
      match parseStringAux [] rest with
      | none => none
      | some (key, r2) =>
        match skipWsC r2 with
        | ':' :: r3 =>
          match parseValue f (skipWsC r3) with
          | none => none
          | some (v, r4) =>
            match skipWsC r4 with
            | ',' :: r5 => parseMembers f (skipWsC r5) ((key, v) :: acc)
            | '}' :: r5 => some (.obj ((key, v) :: acc).reverse, r5)
            | _ => none
        | _ => none
    | _ => none

/-- Parse the elements of a JSON array, positioned at an element. -/
def parseElems : Nat → List Char → List J → Option (J × List Char)
  | 0, _, _ => none
  | f + 1, l, acc =>
    match parseValue f l with
    | none => none
    | some (v, r2) =>
      match skipWsC r2 with
      | ',' :: r3 => parseElems f (skipWsC r3) (v :: acc)
      | ']' :: r3 => some (.arr (v :: acc).reverse, r3)
      | _ => none

end

/-- Parse a whole JSON document that has already been stripped of
surrounding whitespace; the value must consume the entire input. -/
def jsonParseCore (y : List Char) : Option J :=
  match parseValue (2 * y.length + 4) y with
  | some (v, []) => some v
  | _ => none

/-- Model of Python `json.loads` on a character list.  `json.loads`
skips whitespace around the top-level value and rejects any further
trailing text, which is extensionally the same as stripping both ends
and requiring the value to consume the stripped input exactly (a parsed
value always ends in a non-whitespace character).  The model is slightly
lax at two corners that no claim touches: it also treats vertical
tab/form feed as skippable whitespace, and it accepts numbers with
leading zeros. -/
def jsonParse (l : List Char) : Option J := jsonParseCore (stripC l)

/-- Membership lookup of Python `dict.get(k)` for a dict built from a
JSON object literal: on duplicate keys the last occurrence wins. -/
def dGet (fields : List (List Char × J)) (k : List Char) : Option J :=
  (fields.reverse.find? (fun p => p.1 == k)).map (fun p => p.2)

/-- Python truthiness of a JSON value. -/
def pyTruthy : J → Bool
  | .null => false
  | .bool b => b
  | .num n => n != 0
  | .str s => !s.isEmpty
  | .arr xs => !xs.isEmpty
  | .obj fs => !fs.isEmpty

/-- Python truthiness of `dict.get(k)` (absent key gives `None`). -/
def pyTruthyOpt : Option J → Bool
  | none => false
  | some v => pyTruthy v

/-- Python truthiness of an optional string (`None` and the empty string
are falsy). -/
def pyTruthyStr : Option String → Bool
  | none => false
  | some s => !s.isEmpty

/-- Python `str()` rendering of an optional string (`None` renders as
the text None, as it would inside an f-string). -/
def pyStrOpt : Option String → String
  | none => "None"
  | some s => s

/-- Test for the object constructor of `J`. -/
def isObjB : J → Bool
  | .obj _ => true
  | _ => false

/-- Metrics extraction of the orchestrator success branch
(`main.py` lines 192-199): if the stripped stdout is non-empty, apply
`json.loads` to the last line of the stripped stdout
(`stdout.strip().split(chr(10))[-1]`); any parse failure, or empty
stdout, silently yields the empty mapping. -/
def metricsOf (stdout : String) : J :=
  if (stripC stdout.data).isEmpty then .obj []
  else
    match jsonParse (lastLineC (stripC stdout.data)) with
    | some v => v
    | none => .obj []

/-- A reference to a blob in Cloud Storage, as carried by the request
field `fileReference` (`{storagePath}`). -/
structure FileReference where
  storagePath : String
deriving DecidableEq

/-- The fields read from the JSON body of `POST /process` via
`data.get(...)`; each is `None` when absent. -/
structure JobRequest where
  executionId : Option String
  operationId : Option String
  scriptPath : Option String
  fileReference : Option FileReference
  callbackUrl : Option String
deriving DecidableEq

/-- Behaviour of the `subprocess.run` call on this request: the child
completes with an exit code and captured streams, exceeds the 300 s
timeout (`subprocess.TimeoutExpired`), or the call raises some other
exception (for example a missing interpreter). -/
inductive RunBehavior where
  | completed (returncode : Int) (stdout stderr : String) : RunBehavior
  | timeout (partialStdout partialStderr : String) : RunBehavior
  | raises (msg : String) : RunBehavior
deriving DecidableEq

/-- Oracle for the external world of one `/process` request: outcomes of
the Cloud Storage calls, the child process, and the filesystem.  The
code never branches on the values of `timestamp`, `signedUrl` or
`resultSize`; they only flow into the output descriptor. -/
structure World where
  tempName : String
  downloadOk : Bool
  scriptExists : Bool
  run : RunBehavior
  resultFileExists : Bool
  uploadOk : Bool
  timestamp : String
  signedUrl : String
  resultSize : Nat
deriving DecidableEq

/-- Outcomes of the two `os.unlink` calls in the cleanup block: `false`
means the call raises (and the file stays on disk). -/
structure CleanupFlags where
  unlinkInputOk : Bool
  unlinkResultOk : Bool
deriving DecidableEq

/-- The dict returned by `execute_script`: the success branch carries
`stdout`, `stderr` and `returncode`; the exception branches carry only
`error`.  Absent keys are `none` (the orchestrator reads them with
`dict.get` and a default). -/
structure ScriptResult where
  success : Bool
  stdout : Option String
  stderr : Option String
  returncode : Option Int
  error : Option String
deriving DecidableEq

/-- The descriptor built by `upload_result_to_storage`. -/
structure OutputFileDescriptor where
  storagePath : String
  downloadUrl : String
  filename : String
  originalName : String
  size : Nat
deriving DecidableEq

/-- The `results` dict of the orchestrator.  `ok` is the success branch
(lines 206-218): the well-known metric fields with their defaults, the
whole parsed metrics value under `data`, and the output files.  `failed`
is the handled failure branch (lines 221-231): its `data` sub-dict
fields are inlined.  `excFailed` is the results dict built inside the
outer exception handler for the failure notification. -/
inductive Results where
  | ok (message : String) (recordsProcessed recordsSuccessful recordsFailed : J)
      (totalAmount currency : Option J) (mocked : J) (note : Option J)
      (data : J) (outputFiles : List OutputFileDescriptor) : Results
  | failed (message : String) (errors : List String)
      (stdout stderr : String) (returncode : Option Int) : Results
  | excFailed (message : String) (errors : List String) : Results

/-- Body of the HTTP response: the handled envelope
`{success: true, executionId, status, results}` returned with 200, or
the outer-handler envelope `{success: false, error}` returned with 500. -/
inductive HttpBody where
  | handled (executionId : Option String) (status : String) (results : Results) : HttpBody
  | errorBody (msg : String) : HttpBody

/-- An HTTP response: status code and body. -/
structure HttpResp where
  code : Nat
  body : HttpBody

/-- One invocation of `send_webhook_notification`, recording the
arguments it was called with. -/
structure WebhookCall where
  url : Option String
  executionId : Option String
  status : String
  results : Results

/-- Local staging bookkeeping for one request: whether the input temp
file and `/tmp/result.csv` were created during the call, whether each
still exists when the handler returns, whether the input blob download
completed, and whether the child process was started. -/
structure Staging where
  tempCreated : Bool
  tempExists : Bool
  resultCreated : Bool
  resultExists : Bool
  downloaded : Bool
  launched : Bool
deriving DecidableEq

/-- Everything observable about one handled request: the HTTP response,
the sequence of webhook notifier invocations, and the final staging
state. -/
structure Outcome where
  response : HttpResp
  webhooks : List WebhookCall
  staging : Staging

/-- Message of the `TypeError` raised by `bucket.blob(file_reference[...])`
when the request carried no `fileReference` (`None` is not subscriptable). -/
def subscriptTypeErrMsg : String := "NoneType object is not subscriptable"

/-- Message of the exception raised by `blob.download_to_filename` when
the input blob cannot be fetched. -/
def downloadErrMsg : String := "download failed"

/-- Message of the `TypeError` raised by `os.path.join` when
`script_path` is `None`. -/
def joinTypeErrMsg : String :=
  "join() argument must be str, bytes, or os.PathLike object, not NoneType"

/-- Message of the `TypeError` raised by `subprocess.run` when the
environment dict maps EXECUTION_ID to `None`. -/
def envTypeErrMsg : String := "str expected, not NoneType"

/-- Message of the `AttributeError` raised by `metrics.get(...)` when
`json.loads` produced a non-dict value. -/
def attrErrMsg : String := "object has no attribute get"

/-- Model of `download_file_from_storage` (lines 27-42): with no
`fileReference` the subscript raises before the temp file is created;
otherwise `tempfile.NamedTemporaryFile(delete=False)` creates the local
staging file and `blob.download_to_filename` either fills it or raises,
leaving the created file behind in both cases.  The function logs and
re-raises on error.  The result pairs the raised-or-returned path with
whether the temp file was created. -/
def download_file_from_storage (w : World) (file_reference : Option FileReference) :
    Except String String × Bool :=
  match file_reference with
  | none => (.error subscriptTypeErrMsg, false)
  | some _ => if w.downloadOk then (.ok w.tempName, true) else (.error downloadErrMsg, true)

/-- Python `os.path.join(dir, p)`: an absolute second component replaces
the first. -/
def pyJoin (dir p : String) : String :=
  if p.startsWith "/" then p else dir ++ "/" ++ p

/-- Model of `execute_script` (lines 76-131).  Every failure of the body
is caught inside the function: `os.path.join` with a `None` script path
raises `TypeError`; a missing script file raises `FileNotFoundError`
with message `Script not found: <path>`; `subprocess.run` raises
`TypeError` when EXECUTION_ID is `None`; `subprocess.TimeoutExpired`
yields the fixed timeout message (discarding any partial output); any
completed run yields the captured streams with `success` true exactly
for exit code 0. -/
def execute_script (w : World) (script_path : Option String) (_input_file_path : String)
    (execution_id : Option String) : ScriptResult :=
  match script_path with
  | none => ⟨false, none, none, none, some joinTypeErrMsg⟩
  | some p =>
    if w.scriptExists then
      match execution_id with
      | none => ⟨false, none, none, none, some envTypeErrMsg⟩
      | some _ =>
        match w.run with
        | .completed rc out err => ⟨rc == 0, some out, some err, some rc, none⟩
        | .timeout _ _ => ⟨false, none, none, none,
            some "Script execution timed out after 5 minutes"⟩
        | .raises m => ⟨false, none, none, none, some m⟩
    else ⟨false, none, none, none, some ("Script not found: " ++ pyJoin "/app/scripts" p)⟩

/-- Model of `upload_result_to_storage` (lines 44-74): on success it
builds the descriptor from the execution id and a timestamp; any storage
failure (upload or signed-URL generation) re-raises. -/
def upload_result_to_storage (w : World) (_file_path : String)
    (execution_id : Option String) : Except String OutputFileDescriptor :=
  if w.uploadOk then
    let fname := pyStrOpt execution_id ++ "_" ++ w.timestamp ++ "_result.csv"
    .ok ⟨"finance-operations/results/" ++ fname, w.signedUrl, fname,
         "result_" ++ w.timestamp ++ ".csv", w.resultSize⟩
  else .error "upload failed"

/-- Model of `send_webhook_notification` (lines 133-158).  The whole
body is wrapped in try/except, so the function never raises; the
delivery outcome (exception, non-200 status) is only logged and has no
data flow into the caller, so the model records just the invocation. -/
def send_webhook_notification (url : Option String) (execution_id : Option String)
    (status : String) (results : Results) : WebhookCall :=
  ⟨url, execution_id, status, results⟩

/-- The outer exception handler (lines 248-272): since `callback_url`
and `execution_id` are assigned before any failing statement, the
`in locals()` guard is always satisfied and the notifier is invoked with
whatever `callbackUrl` value was parsed (possibly `None`); the response
is the 500 envelope `{success: false, error}`.  Cleanup does not run on
this path. -/
def excOutcome (req : JobRequest) (e : String) (st : Staging) : Outcome :=
  { response := ⟨500, .errorBody e⟩
    webhooks := [send_webhook_notification req.callbackUrl req.executionId "failed"
      (.excFailed ("Processing error: " ++ e) [e])]
    staging := st }

/-- The cleanup block (lines 238-244): `os.unlink(input_file_path)`,
then, if `/tmp/result.csv` exists, `os.unlink` on it; the whole block is
wrapped in a bare try/except, so a failing first unlink also skips the
second. -/
def cleanup (cf : CleanupFlags) (st : Staging) : Staging :=
  if cf.unlinkInputOk then
    let st1 := { st with tempExists := false }
    if st1.resultExists then
      if cf.unlinkResultOk then { st1 with resultExists := false } else st1
    else st1
  else st

/-- The tail of the handled path (lines 234-246): webhook notification
exactly when `callback_url` is truthy, then the 200 envelope.  Cleanup
is applied by the caller (it depends only on the staging state). -/
def finishOk (req : JobRequest) (status : String) (results : Results) (st : Staging) :
    Outcome :=
  { response := ⟨200, .handled req.executionId status results⟩
    webhooks :=
      if pyTruthyStr req.callbackUrl then
        [send_webhook_notification req.callbackUrl req.executionId status results]
      else []
    staging := st }

/-- The result-file step of the success branch (lines 184-190): if
`/tmp/result.csv` exists it is uploaded (an upload failure re-raises out
of the handled path), otherwise `output_files` stays empty. -/
def uploadStep (w : World) (req : JobRequest) (resultExists : Bool) :
    Except String (List OutputFileDescriptor) :=
  if resultExists then
    match upload_result_to_storage w "/tmp/result.csv" req.executionId with
    | .error e => .error e
    | .ok d => .ok [d]
  else .ok []

/-- The pipeline after a successful download (lines 180-246): script
execution, then either the success branch (upload, metrics parsing, the
`metrics.get` calls — which raise `AttributeError` when the parsed
metrics value is not a dict — and the success results) or the failure
branch carrying the captured diagnostics. -/
def afterDownload (w : World) (req : JobRequest) : Outcome :=
  let sr := execute_script w req.scriptPath w.tempName req.executionId
  let launched := req.scriptPath.isSome && w.scriptExists && req.executionId.isSome
  let resultCreated := launched && w.resultFileExists
  let st0 : Staging := ⟨true, true, resultCreated, resultCreated, true, launched⟩
  if sr.success then
    match uploadStep w req resultCreated with
    | .error e => excOutcome req e st0
    | .ok outputFiles =>
      let metrics := metricsOf (sr.stdout.getD "")
      match metrics with
      | .obj fields =>
          let msg :=
            if pyTruthyOpt (dGet fields "mocked".data) then
              "Processing completed successfully (MOCKED - No real Stripe API calls made)"
            else "Processing completed successfully"
          let results := Results.ok msg
            ((dGet fields "recordsProcessed".data).getD (.num 0))
            ((dGet fields "recordsSuccessful".data).getD (.num 0))
            ((dGet fields "recordsFailed".data).getD (.num 0))
            (dGet fields "totalAmount".data)
            (dGet fields "currency".data)
            ((dGet fields "mocked".data).getD (.bool false))
            (dGet fields "note".data)
            metrics outputFiles
          finishOk req "completed" results st0
      | _ => excOutcome req attrErrMsg st0
  else
    let results := Results.failed "Processing failed" [sr.error.getD "Unknown error"]
      (sr.stdout.getD "") (sr.stderr.getD "") sr.returncode
    finishOk req "failed" results st0

/-- The handler body before cleanup: download, then the rest of the
pipeline; a download failure escapes to the outer handler with no
subprocess launched. -/
def processCore (w : World) (req : JobRequest) : Outcome :=
  match download_file_from_storage w req.fileReference with
  | (.error e, created) => excOutcome req e ⟨created, created, false, false, false, false⟩
  | (.ok _, _) => afterDownload w req

/-- Model of the `/process` endpoint `process_finance_operation`
(lines 160-272) on a parsed request.  The cleanup block runs exactly on
the handled (200) path, after the webhook notification and before the
response is returned; on the exception (500) path the outer handler
performs no cleanup.  The `deliveryStatus` argument is the outcome of
the webhook HTTP POST; the source only logs it, so it flows nowhere. -/
def process_finance_operation (w : World) (cf : CleanupFlags)
    (_deliveryStatus : Option Nat) (req : JobRequest) : Outcome :=
  let o := processCore w req
  if o.response.code == 200 then { o with staging := cleanup cf o.staging } else o

/-- The results dict of a handled response (`none` for the 500 envelope). -/
def resultsOf (o : Outcome) : Option Results :=
  match o.response.body with
  | .handled _ _ r => some r
  | .errorBody _ => none

/-- The `success` field of a results dict. -/
def resultsSuccess : Results → Bool
  | .ok .. => true
  | .failed .. => false
  | .excFailed .. => false

/-- The `errors` field of a results dict (the success branch has none). -/
def resultsErrors : Results → List String
  | .ok .. => []
  | .failed _ e _ _ _ => e
  | .excFailed _ e => e

/-- The outcome reports a failed job: either the 500 envelope, or a
handled results dict with `success: false`. -/
def reportsFailureB (o : Outcome) : Bool :=
  match o.response.body with
  | .errorBody _ => true
  | .handled _ _ r => !resultsSuccess r

/-- The `data` field of a success results dict. -/
def okData : Results → Option J
  | .ok _ _ _ _ _ _ _ _ d _ => some d
  | _ => none

/-- The `recordsProcessed` field of a success results dict. -/
def okRecordsProcessed : Results → Option J
  | .ok _ rp _ _ _ _ _ _ _ _ => some rp
  | _ => none

/-- The `recordsSuccessful` field of a success results dict. -/
def okRecordsSuccessful : Results → Option J
  | .ok _ _ rs _ _ _ _ _ _ _ => some rs
  | _ => none

/-- The `recordsFailed` field of a success results dict. -/
def okRecordsFailed : Results → Option J
  | .ok _ _ _ rf _ _ _ _ _ _ => some rf
  | _ => none

/-- The `mocked` field of a success results dict. -/
def okMocked : Results → Option J
  | .ok _ _ _ _ _ _ m _ _ _ => some m
  | _ => none

/-! Lemmas about `dropWhile`, `takeWhile`, stripping and line splitting,
used to relate the protocol convention (the last non-empty line of
stdout) to the source computation `stdout.strip().split(chr(10))[-1]`. -/

theorem dropWhile_append_all {p : Char → Bool} {l1 l2 : List Char}
    (h : ∀ a ∈ l1, p a = true) :
    List.dropWhile p (l1 ++ l2) = List.dropWhile p l2 := by
  rw [List.dropWhile_append, List.dropWhile_eq_nil_iff.mpr h]
  simp

theorem dropWhile_append_keep {p : Char → Bool} {l1 l2 : List Char}
    (h : List.dropWhile p l1 ≠ []) :
    List.dropWhile p (l1 ++ l2) = List.dropWhile p l1 ++ l2 := by
  rw [List.dropWhile_append]
  simp [List.isEmpty_eq_false.mpr h]

theorem head?_dropWhile_not {p : Char → Bool} {l : List Char} {c : Char}
    (h : (List.dropWhile p l).head? = some c) : p c = false := by
  induction l with
  | nil => simp [List.dropWhile] at h
  | cons a t ih =>
      rw [List.dropWhile_cons] at h
      by_cases hpa : p a = true
      · rw [if_pos hpa] at h
        exact ih h
      · rw [if_neg hpa] at h
        simp at h
        rw [← h]
        exact Bool.eq_false_iff.mpr hpa

theorem dropWhile_idem {p : Char → Bool} {l : List Char} :
    List.dropWhile p (List.dropWhile p l) = List.dropWhile p l := by
  cases h : List.dropWhile p l with
  | nil => rfl
  | cons c t =>
      have hpc : p c = false := head?_dropWhile_not (by rw [h]; rfl)
      rw [List.dropWhile_cons, if_neg (by simp [hpc])]

theorem exists_takeWhile_append_dropWhile (p : Char → Bool) (l : List Char) :
    ∃ t, l = t ++ List.dropWhile p l :=
  ⟨List.takeWhile p l, (List.takeWhile_append_dropWhile p l).symm⟩

theorem getLast?_dropWhile {p : Char → Bool} {l : List Char}
    (h : List.dropWhile p l ≠ []) :
    (List.dropWhile p l).getLast? = l.getLast? := by
  obtain ⟨t, ht⟩ := exists_takeWhile_append_dropWhile p l
  conv_rhs => rw [ht]
  rw [List.getLast?_append]
  obtain ⟨c, hc⟩ := Option.isSome_iff_exists.mp (List.getLast?_isSome.mpr h)
  rw [hc]
  rfl

theorem takeWhile_append_all {p : Char → Bool} {l1 l2 : List Char}
    (h : ∀ a ∈ l1, p a = true) :
    List.takeWhile p (l1 ++ l2) = l1 ++ List.takeWhile p l2 := by
  rw [List.takeWhile_append, List.takeWhile_eq_self_iff.mpr h]
  simp

/-- A list whose last element is not whitespace is unchanged by right
stripping. -/
theorem stripRightC_eq_self {z : List Char} {c : Char}
    (h : z.getLast? = some c) (hc : isPySpace c = false) :
    stripRightC z = z := by
  obtain ⟨ys, hys⟩ := List.getLast?_eq_some_iff.mp h
  subst hys
  unfold stripRightC
  rw [List.reverse_append]
  simp only [List.reverse_cons, List.reverse_nil, List.nil_append, List.singleton_append]
  rw [List.dropWhile_cons, if_neg (by simp [hc])]
  simp

/-- Right stripping ignores an all-whitespace suffix. -/
theorem stripRightC_append_ws {x w : List Char}
    (h : ∀ a ∈ w, isPySpace a = true) :
    stripRightC (x ++ w) = stripRightC x := by
  unfold stripRightC
  rw [List.reverse_append, dropWhile_append_all (by intro a ha; exact h a (List.mem_reverse.mp ha))]

/-- Left stripping ignores an all-whitespace prefix. -/
theorem stripLeftC_append_ws {x w : List Char}
    (h : ∀ a ∈ w, isPySpace a = true) :
    stripLeftC (w ++ x) = stripLeftC x :=
  dropWhile_append_all h

/-- A string without a newline is its own last line. -/
theorem lastLineC_eq_self {y : List Char} (h : '\n' ∉ y) :
    lastLineC y = y := by
  unfold lastLineC
  rw [List.takeWhile_eq_self_iff.mpr, List.reverse_reverse]
  intro x hx
  have hxy : x ∈ y := List.mem_reverse.mp hx
  simp only [bne_iff_ne, ne_eq]
  intro heq
  exact h (heq ▸ hxy)

/-- The last line of `a ++ newline ++ b` is `b` when `b` has no newline. -/
theorem lastLineC_append {a b : List Char} (h : '\n' ∉ b) :
    lastLineC (a ++ '\n' :: b) = b := by
  unfold lastLineC
  rw [List.reverse_append, List.reverse_cons, List.append_assoc,
    takeWhile_append_all (by
      intro x hx
      have hxb : x ∈ b := List.mem_reverse.mp hx
      simp only [bne_iff_ne, ne_eq]
      intro heq
      exact h (heq ▸ hxb))]
  rw [List.singleton_append, List.takeWhile_cons, if_neg (by simp), List.append_nil,
    List.reverse_reverse]

/-- Decomposition of a list into its right-stripped part and the
stripped whitespace suffix. -/
theorem stripRightC_decomp (l : List Char) :
    ∃ w, l = stripRightC l ++ w ∧ ∀ a ∈ w, isPySpace a = true := by
  refine ⟨(l.reverse.takeWhile isPySpace).reverse, ?_, ?_⟩
  · conv_lhs => rw [← List.reverse_reverse l, ← List.takeWhile_append_dropWhile isPySpace l.reverse]
    rw [List.reverse_append]
    rfl
  · intro a ha
    exact List.mem_takeWhile_imp (List.mem_reverse.mp ha)

/-- Characters of the right-stripped list are characters of the list. -/
theorem mem_stripRightC {l : List Char} {c : Char} (h : c ∈ stripRightC l) : c ∈ l := by
  unfold stripRightC at h
  exact List.mem_reverse.mp ((List.dropWhile_sublist isPySpace).mem (List.mem_reverse.mp h))

/-- The last character of a non-empty right-stripped list is not
whitespace. -/
theorem stripRightC_getLast {l : List Char} {c : Char}
    (h : (stripRightC l).getLast? = some c) : isPySpace c = false := by
  unfold stripRightC at h
  rw [List.getLast?_reverse] at h
  exact head?_dropWhile_not h

/-- Right stripping keeps a prefix whose appended part ends in a
non-whitespace character. -/
theorem stripRightC_append_keep {p z : List Char} {c : Char}
    (hz : z.getLast? = some c) (hc : isPySpace c = false) :
    stripRightC (p ++ z) = p ++ z := by
  apply stripRightC_eq_self (c := c) _ hc
  rw [List.getLast?_append, hz]
  rfl

/-- Main lemma: the source computes the metrics line as
`strip` then take the text after the last newline; when the input
decomposes as arbitrary text `p` (empty or ending in a newline),
followed by a line `L` whose stripped form is non-empty, followed only
by empty lines, that computation agrees with `L` up to stripping. -/
theorem stripC_lastLineC_eq (p L : List Char) (k : Nat)
    (hnl : '\n' ∉ L) (hL1 : stripRightC L ≠ [])
    (hp : p = [] ∨ p.getLast? = some '\n') :
    stripC (lastLineC (stripC (p ++ (L ++ List.replicate k '\n')))) = stripC L := by
  obtain ⟨cL, hcL⟩ := Option.isSome_iff_exists.mp (List.getLast?_isSome.mpr hL1)
  have hcLws : isPySpace cL = false := stripRightC_getLast hcL
  obtain ⟨wl, hwl, hwlws⟩ := stripRightC_decomp L
  -- Step A: right stripping the whole input leaves p ++ stripRightC L.
  have hA : stripRightC (p ++ (L ++ List.replicate k '\n')) = p ++ stripRightC L := by
    conv_lhs => rw [hwl]
    rw [show p ++ ((stripRightC L ++ wl) ++ List.replicate k '\n')
          = (p ++ stripRightC L) ++ (wl ++ List.replicate k '\n') by
        simp [List.append_assoc]]
    rw [stripRightC_append_ws (by
      intro a ha
      rcases List.mem_append.mp ha with h1 | h1
      · exact hwlws a h1
      · rw [(List.mem_replicate.mp h1).2]; rfl)]
    exact stripRightC_append_keep hcL hcLws
  have hnlL1 : '\n' ∉ stripRightC L := fun hmem => hnl (mem_stripRightC hmem)
  have hRL1 : stripRightC (stripRightC L) = stripRightC L := stripRightC_eq_self hcL hcLws
  have hgoalR : stripC L = stripLeftC (stripRightC L) := rfl
  -- the common core: last line of the left-stripped L1, then strip.
  have hcore : stripC (lastLineC (stripLeftC (stripRightC L))) = stripC L := by
    have hnl2 : '\n' ∉ stripLeftC (stripRightC L) := fun hmem =>
      hnlL1 ((List.dropWhile_sublist isPySpace).mem hmem)
    rw [lastLineC_eq_self hnl2]
    have hne : List.dropWhile isPySpace (stripRightC L) ≠ [] := by
      intro h0
      have hall : ∀ a ∈ stripRightC L, isPySpace a = true := List.dropWhile_eq_nil_iff.mp h0
      obtain ⟨ys, hys⟩ := List.getLast?_eq_some_iff.mp hcL
      have hmem : cL ∈ stripRightC L := by rw [hys]; simp
      rw [hall cL hmem] at hcLws
      cases hcLws
    have hlast : (List.dropWhile isPySpace (stripRightC L)).getLast? = some cL := by
      rw [getLast?_dropWhile hne, hcL]
    show stripLeftC (stripRightC (stripLeftC (stripRightC L))) = stripC L
    rw [show stripRightC (stripLeftC (stripRightC L)) = stripLeftC (stripRightC L) from
      stripRightC_eq_self hlast hcLws]
    show List.dropWhile isPySpace (List.dropWhile isPySpace (stripRightC L)) = stripC L
    rw [dropWhile_idem]
    rfl
  rw [show stripC (p ++ (L ++ List.replicate k '\n'))
        = stripLeftC (p ++ stripRightC L) by rw [stripC, hA]]
  by_cases hpe : stripLeftC p = []
  · -- p is entirely whitespace (or empty): left strip reaches into L.
    have hallp : ∀ a ∈ p, isPySpace a = true := List.dropWhile_eq_nil_iff.mp hpe
    rw [stripLeftC_append_ws hallp]
    exact hcore
  · -- p has content; its stripped form still ends in the newline.
    have hq : stripLeftC (p ++ stripRightC L) = stripLeftC p ++ stripRightC L :=
      dropWhile_append_keep hpe
    have hpnl : p.getLast? = some '\n' := by
      rcases hp with h0 | h0
      · subst h0; simp [stripLeftC] at hpe
      · exact h0
    have hqlast : (stripLeftC p).getLast? = some '\n' := by
      show (List.dropWhile isPySpace p).getLast? = some '\n'
      rw [getLast?_dropWhile hpe, hpnl]
    obtain ⟨q0, hq0⟩ := List.getLast?_eq_some_iff.mp hqlast
    rw [hq, hq0, List.append_assoc, List.singleton_append, lastLineC_append hnlL1]
    show stripC (stripRightC L) = stripC L
    rw [stripC, hRL1]
    rfl

/-- The parse of an all-whitespace (or empty) input fails, so a
successful parse forces a non-empty stripped input. -/
theorem stripC_ne_nil_of_jsonParse {L : List Char} {v : J}
    (h : jsonParse L = some v) : stripC L ≠ [] := by
  intro h0
  have hnil : jsonParseCore ([] : List Char) = none := rfl
  rw [jsonParse, h0, hnil] at h
  cases h

/-- When the stdout of the script decomposes as arbitrary prefix text
(empty or ending in a newline), a newline-free line `L`, and trailing
empty lines, and `L` parses as JSON, the orchestrator metrics value is
exactly the parse of `L`: the earlier lines have no influence. -/
theorem metricsOf_lastNonEmptyLine (s : String) (p L : List Char) (k : Nat) (v : J)
    (hdec : s.data = p ++ (L ++ List.replicate k '\n'))
    (hnl : '\n' ∉ L) (hp : p = [] ∨ p.getLast? = some '\n')
    (hL : jsonParse L = some v) :
    metricsOf s = v := by
  have hsc : stripC L ≠ [] := stripC_ne_nil_of_jsonParse hL
  have hR : stripRightC L ≠ [] := by
    intro h0
    apply hsc
    show stripLeftC (stripRightC L) = []
    rw [h0]
    rfl
  have hmain : stripC (lastLineC (stripC s.data)) = stripC L := by
    rw [hdec]
    exact stripC_lastLineC_eq p L k hnl hR hp
  have hguard : stripC s.data ≠ [] := by
    intro h0
    rw [h0] at hmain
    have hz : stripC (lastLineC ([] : List Char)) = ([] : List Char) := rfl
    rw [hz] at hmain
    exact hsc hmain.symm
  have hparse : jsonParse (lastLineC (stripC s.data)) = some v := by
    show jsonParseCore (stripC (lastLineC (stripC s.data))) = some v
    rw [hmain]
    exact hL
  unfold metricsOf
  rw [if_neg (by simp [List.isEmpty_iff, hguard]), hparse]

/-- Computation of the pipeline on the success path: with a good
request, a successful download, an existing script, exit code 0 and a
working artifact store, the outcome is determined by the parsed metrics
value: a dict yields the 200 success results carrying that dict and the
defaulted well-known fields; a non-dict value crashes the handler into
the 500 path (the `AttributeError` from `metrics.get`). -/
theorem success_pipeline (w : World) (cf : CleanupFlags) (d : Option Nat) (req : JobRequest)
    (fr : FileReference) (sp eid : String) (stdout errS : String)
    (hfr : req.fileReference = some fr) (hdl : w.downloadOk = true)
    (hsp : req.scriptPath = some sp) (hex : w.scriptExists = true)
    (hei : req.executionId = some eid)
    (hrun : w.run = .completed 0 stdout errS)
    (hup : w.resultFileExists = true → w.uploadOk = true) :
    (∀ fields, metricsOf stdout = .obj fields →
        (process_finance_operation w cf d req).response.code = 200
      ∧ (resultsOf (process_finance_operation w cf d req)).map resultsSuccess = some true
      ∧ (resultsOf (process_finance_operation w cf d req)).bind okData = some (.obj fields)
      ∧ (resultsOf (process_finance_operation w cf d req)).bind okRecordsProcessed
          = some ((dGet fields ("recordsProcessed".data)).getD (.num 0))
      ∧ (resultsOf (process_finance_operation w cf d req)).bind okRecordsSuccessful
          = some ((dGet fields ("recordsSuccessful".data)).getD (.num 0))
      ∧ (resultsOf (process_finance_operation w cf d req)).bind okRecordsFailed
          = some ((dGet fields ("recordsFailed".data)).getD (.num 0))
      ∧ (resultsOf (process_finance_operation w cf d req)).bind okMocked
          = some ((dGet fields ("mocked".data)).getD (.bool false)))
  ∧ (isObjB (metricsOf stdout) = false →
        (process_finance_operation w cf d req).response.code = 500) := by
  have hsr : execute_script w req.scriptPath w.tempName req.executionId
      = ⟨true, some stdout, some errS, some 0, none⟩ := by
    rw [hsp, hei]
    simp [execute_script, hex, hrun]
  have hdlf : download_file_from_storage w req.fileReference = (.ok w.tempName, true) := by
    rw [hfr]
    simp [download_file_from_storage, hdl]
  have hcore : processCore w req = afterDownload w req := by
    unfold processCore
    rw [hdlf]
  have hofs : ∃ ofs : List OutputFileDescriptor,
      uploadStep w req ((req.scriptPath.isSome && w.scriptExists && req.executionId.isSome)
        && w.resultFileExists) = .ok ofs := by
    cases hrf : w.resultFileExists with
    | false => exact ⟨[], by simp [uploadStep]⟩
    | true =>
        have hu2 : w.uploadOk = true := hup hrf
        refine ⟨[⟨"finance-operations/results/" ++ (pyStrOpt (some eid) ++ "_"
          ++ w.timestamp ++ "_result.csv"), w.signedUrl,
          pyStrOpt (some eid) ++ "_" ++ w.timestamp ++ "_result.csv",
          "result_" ++ w.timestamp ++ ".csv", w.resultSize⟩], ?_⟩
        simp [uploadStep, upload_result_to_storage, hu2, hsp, hei, hex, hrf]
  obtain ⟨ofs, hofs⟩ := hofs
  have hafd : afterDownload w req =
      match metricsOf stdout with
      | .obj fields =>
          finishOk req "completed"
            (Results.ok
              (if pyTruthyOpt (dGet fields ("mocked".data)) then
                "Processing completed successfully (MOCKED - No real Stripe API calls made)"
               else "Processing completed successfully")
              ((dGet fields ("recordsProcessed".data)).getD (.num 0))
              ((dGet fields ("recordsSuccessful".data)).getD (.num 0))
              ((dGet fields ("recordsFailed".data)).getD (.num 0))
              (dGet fields ("totalAmount".data))
              (dGet fields ("currency".data))
              ((dGet fields ("mocked".data)).getD (.bool false))
              (dGet fields ("note".data))
              (metricsOf stdout) ofs)
            ⟨true, true, (req.scriptPath.isSome && w.scriptExists && req.executionId.isSome)
              && w.resultFileExists,
              (req.scriptPath.isSome && w.scriptExists && req.executionId.isSome)
              && w.resultFileExists, true,
              req.scriptPath.isSome && w.scriptExists && req.executionId.isSome⟩
      | _ => excOutcome req attrErrMsg
          ⟨true, true, (req.scriptPath.isSome && w.scriptExists && req.executionId.isSome)
            && w.resultFileExists,
            (req.scriptPath.isSome && w.scriptExists && req.executionId.isSome)
            && w.resultFileExists, true,
            req.scriptPath.isSome && w.scriptExists && req.executionId.isSome⟩ := by
    simp only [afterDownload]
    rw [hsr]
    simp only [Option.getD_some, if_true]
    rw [hofs]
  constructor
  · intro fields hm
    rw [hm] at hafd
    refine ⟨?_, ?_, ?_, ?_, ?_, ?_, ?_⟩ <;>
      simp [process_finance_operation, hcore, hafd, finishOk, resultsOf, resultsSuccess,
        okData, okRecordsProcessed, okRecordsSuccessful, okRecordsFailed, okMocked]
  · intro hio
    cases hm : metricsOf stdout with
    | obj fields => rw [hm] at hio; cases hio
    | null =>
        rw [hm] at hafd
        simp [process_finance_operation, hcore, hafd, excOutcome]
    | bool b =>
        rw [hm] at hafd
        simp [process_finance_operation, hcore, hafd, excOutcome]
    | num n =>
        rw [hm] at hafd
        simp [process_finance_operation, hcore, hafd, excOutcome]
    | str s2 =>
        rw [hm] at hafd
        simp [process_finance_operation, hcore, hafd, excOutcome]
    | arr xs =>
        rw [hm] at hafd
        simp [process_finance_operation, hcore, hafd, excOutcome]

/-- The cleanup step never changes the HTTP response. -/
theorem process_response (w : World) (cf : CleanupFlags) (d : Option Nat) (req : JobRequest) :
    (process_finance_operation w cf d req).response = (processCore w req).response := by
  unfold process_finance_operation
  cases h : (processCore w req).response.code == 200 <;> simp [h]

/-- The cleanup step never changes the webhook invocations. -/
theorem process_webhooks (w : World) (cf : CleanupFlags) (d : Option Nat) (req : JobRequest) :
    (process_finance_operation w cf d req).webhooks = (processCore w req).webhooks := by
  unfold process_finance_operation
  cases h : (processCore w req).response.code == 200 <;> simp [h]

/-- Extract the results dict from a known handled response. -/
theorem resultsOf_eq_of_response (o : Outcome) (eid : Option String) (s : String)
    (r : Results) (c : Nat) (h : o.response = ⟨c, .handled eid s r⟩) :
    resultsOf o = some r := by
  unfold resultsOf
  rw [h]

/-- Cleanup touches only the two existence flags of the staging state. -/
theorem cleanup_projections (cf : CleanupFlags) (st : Staging) :
    (cleanup cf st).tempCreated = st.tempCreated
    ∧ (cleanup cf st).resultCreated = st.resultCreated
    ∧ (cleanup cf st).downloaded = st.downloaded
    ∧ (cleanup cf st).launched = st.launched := by
  unfold cleanup
  cases hcu : cf.unlinkInputOk <;>
    cases hre : st.resultExists <;>
      cases hcr : cf.unlinkResultOk <;> simp [hre]

/-- Any failing script step (missing script name, unresolvable script,
missing execution id, timeout, launch error, non-zero exit) produces a
captured failure, never an exception. -/
theorem execute_script_fail (w : World) (sp ei : Option String) (ifp : String)
    (h : sp = none ∨ w.scriptExists = false ∨ ei = none
      ∨ (∃ a b, w.run = .timeout a b) ∨ (∃ m, w.run = .raises m)
      ∨ (∃ rc o2 e2, w.run = .completed rc o2 e2 ∧ rc ≠ 0)) :
    (execute_script w sp ifp ei).success = false := by
  rcases sp with _ | p
  · rfl
  · cases hse : w.scriptExists with
    | false => simp [execute_script, hse]
    | true =>
      rcases ei with _ | e
      · simp [execute_script, hse]
      · rcases h with h | h | h | ⟨a, b, h⟩ | ⟨m, h⟩ | ⟨rc, o2, e2, h, hrc⟩
        · simp at h
        · rw [h] at hse
          simp at hse
        · simp at h
        · simp [execute_script, hse, h]
        · simp [execute_script, hse, h]
        · simp [execute_script, hse, h]
          exact hrc

/-- A failed script outcome drives the pipeline to the handled failure
results carrying the captured diagnostics. -/
theorem processCore_script_fail (w : World) (req : JobRequest) (fr : FileReference)
    (hfr : req.fileReference = some fr) (hdl : w.downloadOk = true)
    (hsf : (execute_script w req.scriptPath w.tempName req.executionId).success = false) :
    processCore w req = finishOk req "failed"
      (Results.failed "Processing failed"
        [(execute_script w req.scriptPath w.tempName req.executionId).error.getD "Unknown error"]
        ((execute_script w req.scriptPath w.tempName req.executionId).stdout.getD "")
        ((execute_script w req.scriptPath w.tempName req.executionId).stderr.getD "")
        (execute_script w req.scriptPath w.tempName req.executionId).returncode)
      ⟨true, true,
        (req.scriptPath.isSome && w.scriptExists && req.executionId.isSome) && w.resultFileExists,
        (req.scriptPath.isSome && w.scriptExists && req.executionId.isSome) && w.resultFileExists,
        true,
        req.scriptPath.isSome && w.scriptExists && req.executionId.isSome⟩ := by
  unfold processCore
  rw [hfr]
  simp only [download_file_from_storage, hdl, if_true]
  simp only [afterDownload]
  rw [hsf]
  simp

/-- Exactly one webhook invocation occurred, delivering a failure
results dict to the request's callback URL. -/
def failedWebhookB (o : Outcome) (req : JobRequest) : Bool :=
  match o.webhooks with
  | [c] => (c.url == req.callbackUrl) && (c.status == "failed") && (!resultsSuccess c.results)
  | _ => false

/-- The diagnostic payload of a failure results dict: captured stdout,
stderr and exit code. -/
def failedDiag : Results → Option (String × String × Option Int)
  | .failed _ _ so se rc => some (so, se, rc)
  | _ => none

/-- On the exception path the claim conclusions hold: the 500 envelope
reports failure and the notifier was invoked once with a failure
payload for the parsed callback URL. -/
theorem exc_path_conclusion (w : World) (cf : CleanupFlags) (d : Option Nat)
    (req : JobRequest) (e : String) (st : Staging)
    (hpc : processCore w req = excOutcome req e st) :
    reportsFailureB (process_finance_operation w cf d req) = true
    ∧ failedWebhookB (process_finance_operation w cf d req) req = true := by
  have hw : process_finance_operation w cf d req = excOutcome req e st := by
    unfold process_finance_operation
    rw [hpc]
    rfl
  rw [hw]
  exact ⟨rfl, by simp [failedWebhookB, excOutcome, send_webhook_notification, resultsSuccess]⟩

/-- On a handled failure path the claim conclusions hold: the results
dict reports failure and, when the callback URL is truthy, the notifier
was invoked once with that failure payload. -/
theorem failed_finish_conclusion (w : World) (cf : CleanupFlags) (d : Option Nat)
    (req : JobRequest) (r : Results) (st : Staging)
    (hpc : processCore w req = finishOk req "failed" r st)
    (hr : resultsSuccess r = false) :
    reportsFailureB (process_finance_operation w cf d req) = true
    ∧ (pyTruthyStr req.callbackUrl = true →
        failedWebhookB (process_finance_operation w cf d req) req = true) := by
  have hresp : (process_finance_operation w cf d req).response
      = (finishOk req "failed" r st).response := by
    rw [process_response, hpc]
  have hwh : (process_finance_operation w cf d req).webhooks
      = (finishOk req "failed" r st).webhooks := by
    rw [process_webhooks, hpc]
  constructor
  · unfold reportsFailureB
    rw [hresp]
    simp [finishOk, hr]
  · intro hcb
    unfold failedWebhookB
    rw [hwh]
    simp [finishOk, hcb, send_webhook_notification, hr]

/-- Every run of the pipeline body ends in the exception handler or in
the handled-envelope tail: the handler never throws past its boundary. -/
theorem afterDownload_shape (w : World) (req : JobRequest) :
    (∃ e st, afterDownload w req = excOutcome req e st)
    ∨ (∃ s r st, afterDownload w req = finishOk req s r st) := by
  simp only [afterDownload]
  split
  · split
    · exact Or.inl ⟨_, _, rfl⟩
    · split
      · exact Or.inr ⟨_, _, _, rfl⟩
      · exact Or.inl ⟨_, _, rfl⟩
  · exact Or.inr ⟨_, _, _, rfl⟩

/-- Shape of the whole pipeline: exception outcome or handled outcome. -/
theorem processCore_shape (w : World) (req : JobRequest) :
    (∃ e st, processCore w req = excOutcome req e st)
    ∨ (∃ s r st, processCore w req = finishOk req s r st) := by
  unfold processCore
  cases hd : download_file_from_storage w req.fileReference with
  | mk res created =>
    cases res with
    | error e => exact Or.inl ⟨e, _, rfl⟩
    | ok pth => exact afterDownload_shape w req

/-- A request with every field present and a cooperative world: download
succeeds, the script exists and exits 0 with empty output, no result
file is produced, the artifact store works. -/
def goodWorld : World :=
  ⟨"/tmp/tmpabc.csv", true, true, .completed 0 "" "", false, true,
    "20240101_000000", "https://signed.example/u", 10⟩

/-- Cleanup flags for a filesystem where both unlink calls succeed. -/
def okFlags : CleanupFlags := ⟨true, true⟩

/-- A fully populated request without a callback URL. -/
def goodReq : JobRequest :=
  ⟨some "exec-1", some "op-1", some "stripe_balance_payout.py",
    some ⟨"uploads/in.csv"⟩, none⟩

/-! Claim theorems. -/

/-- C1: for every JobRequest accepted by the `/process` endpoint,
`process` never throws past its boundary: every failure (fetch error,
script failure, timeout) is captured into a results dict with
`success: false` — as the handled failure results or as the 500
envelope — and, if a callbackUrl was supplied, that failure result is
forwarded to the Webhook Notifier (which runs before the HTTP response
is built on both paths of the source).  The failure modes are expressed
as conditions on the environment oracle: a missing `fileReference` or a
failing blob download (fetch error), and every script-step failure
including the timeout. -/
theorem c1_failures_captured (w : World) (cf : CleanupFlags) (d : Option Nat)
    (req : JobRequest)
    (h : (req.fileReference = none ∨ w.downloadOk = false)
       ∨ (req.scriptPath = none ∨ w.scriptExists = false ∨ req.executionId = none
          ∨ (∃ a b, w.run = .timeout a b) ∨ (∃ m, w.run = .raises m)
          ∨ (∃ rc o2 e2, w.run = .completed rc o2 e2 ∧ rc ≠ 0))) :
    reportsFailureB (process_finance_operation w cf d req) = true
    ∧ (pyTruthyStr req.callbackUrl = true →
        failedWebhookB (process_finance_operation w cf d req) req = true) := by
  rcases hfrc : req.fileReference with _ | fr
  · have hpc : processCore w req
        = excOutcome req subscriptTypeErrMsg ⟨false, false, false, false, false, false⟩ := by
      unfold processCore
      rw [hfrc]
      rfl
    have hc := exc_path_conclusion w cf d req _ _ hpc
    exact ⟨hc.1, fun _ => hc.2⟩
  · cases hdl : w.downloadOk with
    | false =>
        have hpc : processCore w req
            = excOutcome req downloadErrMsg ⟨true, true, false, false, false, false⟩ := by
          unfold processCore
          rw [hfrc]
          simp [download_file_from_storage, hdl]
        have hc := exc_path_conclusion w cf d req _ _ hpc
        exact ⟨hc.1, fun _ => hc.2⟩
    | true =>
        rcases h with (h | h) | h
        · rw [hfrc] at h
          simp at h
        · rw [h] at hdl
          simp at hdl
        · have hsf : (execute_script w req.scriptPath w.tempName req.executionId).success
              = false :=
            execute_script_fail w req.scriptPath req.executionId w.tempName h
          exact failed_finish_conclusion w cf d req _ _
            (processCore_script_fail w req fr hfrc hdl hsf) rfl

/-- Witness for C1 at a concrete input: a request whose blob download
fails, with a callback URL supplied. -/
theorem c1_failures_captured_witness :
    reportsFailureB (process_finance_operation {goodWorld with downloadOk := false} okFlags
      none {goodReq with callbackUrl := some "https://cb.example/hook"}) = true
    ∧ (pyTruthyStr ({goodReq with callbackUrl := some "https://cb.example/hook"} :
          JobRequest).callbackUrl = true →
        failedWebhookB (process_finance_operation {goodWorld with downloadOk := false} okFlags
          none {goodReq with callbackUrl := some "https://cb.example/hook"})
          {goodReq with callbackUrl := some "https://cb.example/hook"} = true) :=
  c1_failures_captured {goodWorld with downloadOk := false} okFlags none
    {goodReq with callbackUrl := some "https://cb.example/hook"} (Or.inl (Or.inr rfl))

/-- C2 counterexample: with a produced result file and a failing
artifact-store upload, the exception escapes to the outer handler
before the cleanup block, and both staging files created during the
call (the downloaded input temp file and /tmp/result.csv) remain on
local storage after `process` returns.  This refutes the claim that no
staging file remains on every path. -/
theorem c2_cleanup_counterexample :
    (process_finance_operation {goodWorld with resultFileExists := true, uploadOk := false}
      okFlags none goodReq).staging.tempCreated = true
    ∧ (process_finance_operation {goodWorld with resultFileExists := true, uploadOk := false}
        okFlags none goodReq).staging.tempExists = true
    ∧ (process_finance_operation {goodWorld with resultFileExists := true, uploadOk := false}
        okFlags none goodReq).staging.resultCreated = true
    ∧ (process_finance_operation {goodWorld with resultFileExists := true, uploadOk := false}
        okFlags none goodReq).staging.resultExists = true
    ∧ (process_finance_operation {goodWorld with resultFileExists := true, uploadOk := false}
        okFlags none goodReq).response.code = 500 :=
  ⟨rfl, rfl, rfl, rfl, rfl⟩

/-- C2 amended: cleanup runs exactly on the handled (200) path.  There,
when the two unlink calls succeed, no staging file created during the
call remains; and the cleanup flags (including failing unlink calls,
which the bare except swallows) never change the HTTP response or the
webhook invocations.  On the exception (500) path the cleanup block is
skipped and staging files may remain (see the counterexample). -/
theorem c2_cleanup_amended (w : World) (cf : CleanupFlags) (d : Option Nat)
    (req : JobRequest) :
    ((process_finance_operation w ⟨true, true⟩ d req).response.code = 200 →
        (process_finance_operation w ⟨true, true⟩ d req).staging.tempExists = false
      ∧ (process_finance_operation w ⟨true, true⟩ d req).staging.resultExists = false)
    ∧ (process_finance_operation w cf d req).response
        = (process_finance_operation w ⟨true, true⟩ d req).response
    ∧ (process_finance_operation w cf d req).webhooks
        = (process_finance_operation w ⟨true, true⟩ d req).webhooks := by
  refine ⟨?_, ?_, ?_⟩
  · intro h200
    by_cases hc : ((processCore w req).response.code == 200) = true
    · have hw : process_finance_operation w ⟨true, true⟩ d req
          = { processCore w req with
              staging := cleanup ⟨true, true⟩ (processCore w req).staging } := by
        unfold process_finance_operation
        rw [if_pos hc]
      rw [hw]
      constructor
      · show (cleanup ⟨true, true⟩ (processCore w req).staging).tempExists = false
        unfold cleanup
        cases hre : (processCore w req).staging.resultExists <;> simp [hre]
      · show (cleanup ⟨true, true⟩ (processCore w req).staging).resultExists = false
        unfold cleanup
        cases hre : (processCore w req).staging.resultExists <;> simp [hre]
    · have hw : process_finance_operation w ⟨true, true⟩ d req = processCore w req := by
        unfold process_finance_operation
        rw [if_neg hc]
      rw [hw] at h200
      exact absurd (by rw [h200]; rfl : ((processCore w req).response.code == 200) = true) hc
  · rw [process_response, process_response]
  · rw [process_webhooks, process_webhooks]

/-- Witness for C2 amended: on the fully successful concrete run the
response is 200 and both staging flags are clear afterwards. -/
theorem c2_cleanup_amended_witness :
    (process_finance_operation goodWorld ⟨true, true⟩ none goodReq).response.code = 200
    ∧ (process_finance_operation goodWorld ⟨true, true⟩ none goodReq).staging.tempExists
        = false
    ∧ (process_finance_operation goodWorld ⟨true, true⟩ none goodReq).staging.resultExists
        = false :=
  ⟨rfl, ((c2_cleanup_amended goodWorld ⟨true, true⟩ none goodReq).1 rfl).1,
    ((c2_cleanup_amended goodWorld ⟨true, true⟩ none goodReq).1 rfl).2⟩

/-- C3 counterexample: on a timed-out script run, the failure reason
recorded in `errors` is the fixed message, not the literal string
timeout, and the partial stdout/stderr captured up to termination
(present on the world as the TimeoutExpired payload) is not preserved:
the diagnostic data carries empty streams and no exit code. -/
theorem c3_timeout_counterexample :
    (resultsOf (process_finance_operation
        {goodWorld with run := .timeout "partial out" "partial err"} okFlags none
        goodReq)).map resultsErrors = some ["Script execution timed out after 5 minutes"]
    ∧ (resultsOf (process_finance_operation
        {goodWorld with run := .timeout "partial out" "partial err"} okFlags none
        goodReq)).map resultsErrors ≠ some ["timeout"]
    ∧ (resultsOf (process_finance_operation
        {goodWorld with run := .timeout "partial out" "partial err"} okFlags none
        goodReq)).map resultsSuccess = some false
    ∧ (resultsOf (process_finance_operation
        {goodWorld with run := .timeout "partial out" "partial err"} okFlags none
        goodReq)).bind failedDiag = some ("", "", none) :=
  ⟨rfl, by decide, rfl, rfl⟩

/-- C3 amended: for every request whose script execution exceeds the
wall-clock timeout, the job result has `success: false` with the fixed
message `Script execution timed out after 5 minutes` as the sole error;
the exception branch of the runner discards the partial stdout/stderr,
so the diagnostic data holds empty streams and no exit code, and the
response is still the handled 200 envelope. -/
theorem c3_timeout_amended (w : World) (cf : CleanupFlags) (d : Option Nat)
    (req : JobRequest) (fr : FileReference) (sp eid po pe : String)
    (hfr : req.fileReference = some fr) (hdl : w.downloadOk = true)
    (hsp : req.scriptPath = some sp) (hex : w.scriptExists = true)
    (hei : req.executionId = some eid) (hrun : w.run = .timeout po pe) :
    (process_finance_operation w cf d req).response.code = 200
    ∧ resultsOf (process_finance_operation w cf d req)
        = some (.failed "Processing failed"
            ["Script execution timed out after 5 minutes"] "" "" none) := by
  have hsr : execute_script w req.scriptPath w.tempName req.executionId
      = ⟨false, none, none, none, some "Script execution timed out after 5 minutes"⟩ := by
    rw [hsp, hei]
    simp [execute_script, hex, hrun]
  have hpc := processCore_script_fail w req fr hfr hdl (by rw [hsr])
  rw [hsr] at hpc
  constructor
  · rw [process_response, hpc]
    rfl
  · refine resultsOf_eq_of_response _ req.executionId "failed" _ 200 ?_
    rw [process_response, hpc]
    rfl

/-- Witness for C3 amended at the concrete timed-out run. -/
theorem c3_timeout_amended_witness :
    (process_finance_operation {goodWorld with run := .timeout "partial out" "partial err"}
      okFlags none goodReq).response.code = 200
    ∧ resultsOf (process_finance_operation
        {goodWorld with run := .timeout "partial out" "partial err"} okFlags none goodReq)
        = some (.failed "Processing failed"
            ["Script execution timed out after 5 minutes"] "" "" none) :=
  c3_timeout_amended {goodWorld with run := .timeout "partial out" "partial err"} okFlags
    none goodReq ⟨"uploads/in.csv"⟩ "stripe_balance_payout.py" "exec-1"
    "partial out" "partial err" rfl rfl rfl rfl rfl rfl

/-- C4: for every valid JobRequest where the script exits 0 and the last
non-empty line of its stdout is a well-formed metrics record (a JSON
object), the job result has `success: true` and its metrics (the `data`
field of the results dict, which carries the whole parsed record) equal
the record parsed from that last line exactly; the earlier free-form
progress lines `p` do not affect the parsed metrics.  The last non-empty
line is expressed by the decomposition of stdout into a prefix `p`
(empty or ending in a newline), the newline-free line `L`, and trailing
empty lines; the artifact store is assumed to work when an output file
has to be uploaded on this path. -/
theorem c4_metrics_from_last_line (w : World) (cf : CleanupFlags) (d : Option Nat)
    (req : JobRequest) (fr : FileReference) (sp eid : String) (stdout errS : String)
    (p L : List Char) (k : Nat) (m : List (List Char × J))
    (hfr : req.fileReference = some fr) (hdl : w.downloadOk = true)
    (hsp : req.scriptPath = some sp) (hex : w.scriptExists = true)
    (hei : req.executionId = some eid)
    (hrun : w.run = .completed 0 stdout errS)
    (hup : w.resultFileExists = true → w.uploadOk = true)
    (hdec : stdout.data = p ++ (L ++ List.replicate k '\n'))
    (hnl : '\n' ∉ L) (hp : p = [] ∨ p.getLast? = some '\n')
    (hL : jsonParse L = some (.obj m)) :
    (process_finance_operation w cf d req).response.code = 200
    ∧ (resultsOf (process_finance_operation w cf d req)).map resultsSuccess = some true
    ∧ (resultsOf (process_finance_operation w cf d req)).bind okData = some (.obj m) := by
  have hm : metricsOf stdout = .obj m :=
    metricsOf_lastNonEmptyLine stdout p L k _ hdec hnl hp hL
  have hsp2 := (success_pipeline w cf d req fr sp eid stdout errS
    hfr hdl hsp hex hei hrun hup).1 m hm
  exact ⟨hsp2.1, hsp2.2.1, hsp2.2.2.1⟩

/-- Witness for C4 at the spec scenario: stdout is a progress line
followed by the metrics record. -/
theorem c4_metrics_from_last_line_witness :
    (process_finance_operation {goodWorld with run := (.completed 0
      "progress\n\x7b\"recordsProcessed\":6,\"recordsSuccessful\":6,\"recordsFailed\":0,\"mocked\":true\x7d"
      "")} okFlags none goodReq).response.code = 200
    ∧ (resultsOf (process_finance_operation {goodWorld with run := (.completed 0
        "progress\n\x7b\"recordsProcessed\":6,\"recordsSuccessful\":6,\"recordsFailed\":0,\"mocked\":true\x7d"
        "")} okFlags none goodReq)).map resultsSuccess = some true
    ∧ (resultsOf (process_finance_operation {goodWorld with run := (.completed 0
        "progress\n\x7b\"recordsProcessed\":6,\"recordsSuccessful\":6,\"recordsFailed\":0,\"mocked\":true\x7d"
        "")} okFlags none goodReq)).bind okData
        = some (.obj [("recordsProcessed".data, .num 6), ("recordsSuccessful".data, .num 6),
            ("recordsFailed".data, .num 0), ("mocked".data, .bool true)]) :=
  c4_metrics_from_last_line _ okFlags none goodReq ⟨"uploads/in.csv"⟩
    "stripe_balance_payout.py" "exec-1"
    "progress\n\x7b\"recordsProcessed\":6,\"recordsSuccessful\":6,\"recordsFailed\":0,\"mocked\":true\x7d"
    "" ("progress\n".data)
    ("\x7b\"recordsProcessed\":6,\"recordsSuccessful\":6,\"recordsFailed\":0,\"mocked\":true\x7d".data)
    0 ([("recordsProcessed".data, .num 6), ("recordsSuccessful".data, .num 6),
      ("recordsFailed".data, .num 0), ("mocked".data, .bool true)])
    rfl rfl rfl rfl rfl rfl (fun _ => rfl) rfl (by decide) (Or.inr rfl) rfl

/-- C5 counterexample: the parse step applied to the stdout string 42
yields the JSON number 42, which is not a Metrics mapping, refuting the
claim that every stdout string yields some Metrics mapping. -/
theorem c5_metrics_total_counterexample :
    isObjB (metricsOf "42") = false ∧ metricsOf "42" = .num 42 :=
  ⟨rfl, rfl⟩

/-- C5 amended: the parse step is total by construction and never fails
the job by raising: empty (all-whitespace) stdout and an unparseable
last line both yield the empty mapping silently.  But the parse step
does not always yield a mapping: a last line that is valid JSON of
non-object shape yields that non-object value, and the success branch
then crashes on `metrics.get` into the 500 handler instead of
completing the job. -/
theorem c5_metrics_parse_amended (w : World) (cf : CleanupFlags) (d : Option Nat)
    (req : JobRequest) (fr : FileReference) (sp eid : String) (stdout errS : String)
    (hfr : req.fileReference = some fr) (hdl : w.downloadOk = true)
    (hsp : req.scriptPath = some sp) (hex : w.scriptExists = true)
    (hei : req.executionId = some eid)
    (hrun : w.run = .completed 0 stdout errS)
    (hup : w.resultFileExists = true → w.uploadOk = true) :
    ((stripC stdout.data).isEmpty = true → metricsOf stdout = .obj [])
    ∧ (jsonParse (lastLineC (stripC stdout.data)) = none → metricsOf stdout = .obj [])
    ∧ (∀ fields, metricsOf stdout = .obj fields →
        (process_finance_operation w cf d req).response.code = 200
        ∧ (resultsOf (process_finance_operation w cf d req)).bind okData
            = some (.obj fields))
    ∧ (isObjB (metricsOf stdout) = false →
        (process_finance_operation w cf d req).response.code = 500) := by
  have hsp2 := success_pipeline w cf d req fr sp eid stdout errS hfr hdl hsp hex hei hrun hup
  refine ⟨?_, ?_, ?_, hsp2.2⟩
  · intro h
    unfold metricsOf
    rw [if_pos h]
  · intro h
    unfold metricsOf
    by_cases he : (stripC stdout.data).isEmpty = true
    · rw [if_pos he]
    · rw [if_neg he, h]
  · intro fields hm
    have hc := hsp2.1 fields hm
    exact ⟨hc.1, hc.2.2.1⟩

/-- Witness for C5 amended: a non-object metrics line (42) drives the
concrete run into the 500 handler, and empty stdout yields the empty
mapping on a completed run. -/
theorem c5_metrics_parse_amended_witness :
    (process_finance_operation {goodWorld with run := .completed 0 "42" ""} okFlags none
      goodReq).response.code = 500
    ∧ metricsOf "" = .obj [] :=
  ⟨(c5_metrics_parse_amended {goodWorld with run := .completed 0 "42" ""} okFlags none
      goodReq ⟨"uploads/in.csv"⟩ "stripe_balance_payout.py" "exec-1" "42" ""
      rfl rfl rfl rfl rfl rfl (fun _ => rfl)).2.2.2 rfl,
   (c5_metrics_parse_amended goodWorld okFlags none
      goodReq ⟨"uploads/in.csv"⟩ "stripe_balance_payout.py" "exec-1" "" ""
      rfl rfl rfl rfl rfl rfl (fun _ => rfl)).1 rfl⟩

/-- C6 counterexample: on a request with no callbackUrl whose download
step raises (missing fileReference), the outer handler still invokes the
webhook notifier once — because its guard tests membership of the
variable name in `locals()`, which always holds after parsing — so the
webhook attempt is not equivalent to callbackUrl presence. -/
theorem c6_webhook_counterexample :
    (process_finance_operation goodWorld okFlags none
      ⟨some "exec-1", some "op-1", some "stripe_balance_payout.py", none, none⟩).webhooks.length
      = 1
    ∧ (⟨some "exec-1", some "op-1", some "stripe_balance_payout.py", none, none⟩ :
        JobRequest).callbackUrl = none :=
  ⟨rfl, rfl⟩

/-- C6 amended: on the handled (200) path the notifier is invoked
exactly once iff callbackUrl is truthy, for both success and failure
outcomes; on the exception (500) path it is invoked exactly once
regardless of callbackUrl.  Every invocation targets the parsed
callbackUrl value, and the delivery outcome of the webhook POST (logged
only) never alters anything observable about the request. -/
theorem c6_webhook_amended (w : World) (cf : CleanupFlags) (d : Option Nat)
    (req : JobRequest) :
    ((process_finance_operation w cf d req).response.code = 200 →
        (process_finance_operation w cf d req).webhooks.length
          = if pyTruthyStr req.callbackUrl then 1 else 0)
    ∧ ((process_finance_operation w cf d req).response.code = 500 →
        (process_finance_operation w cf d req).webhooks.length = 1)
    ∧ (∀ c ∈ (process_finance_operation w cf d req).webhooks, c.url = req.callbackUrl)
    ∧ (∀ d2 : Option Nat,
        process_finance_operation w cf d2 req = process_finance_operation w cf d req) := by
  refine ⟨?_, ?_, ?_, fun d2 => rfl⟩
  · intro h200
    rcases processCore_shape w req with ⟨e, st, hpc⟩ | ⟨s, r, st, hpc⟩
    · rw [process_response, hpc] at h200
      simp [excOutcome] at h200
    · rw [process_webhooks, hpc]
      unfold finishOk
      cases hcb : pyTruthyStr req.callbackUrl <;> simp [hcb]
  · intro h500
    rcases processCore_shape w req with ⟨e, st, hpc⟩ | ⟨s, r, st, hpc⟩
    · rw [process_webhooks, hpc]
      rfl
    · rw [process_response, hpc] at h500
      simp [finishOk] at h500
  · intro c hc
    rw [process_webhooks] at hc
    rcases processCore_shape w req with ⟨e, st, hpc⟩ | ⟨s, r, st, hpc⟩
    · rw [hpc] at hc
      simp only [excOutcome, send_webhook_notification, List.mem_singleton] at hc
      rw [hc]
    · rw [hpc] at hc
      unfold finishOk at hc
      cases hcb : pyTruthyStr req.callbackUrl
      · simp [hcb] at hc
      · simp only [hcb, if_true, send_webhook_notification, List.mem_singleton] at hc
        rw [hc]

/-- Witness for C6 amended: with a callback URL the handled run makes
exactly one notifier invocation; without one it makes none. -/
theorem c6_webhook_amended_witness :
    (process_finance_operation goodWorld okFlags none
        {goodReq with callbackUrl := some "https://cb.example/hook"}).webhooks.length = 1
    ∧ (process_finance_operation goodWorld okFlags none goodReq).webhooks.length = 0 :=
  ⟨((c6_webhook_amended goodWorld okFlags none
      {goodReq with callbackUrl := some "https://cb.example/hook"}).1 rfl).trans rfl,
   ((c6_webhook_amended goodWorld okFlags none goodReq).1 rfl).trans rfl⟩

/-- C7 counterexample: a request missing scriptPath but carrying a valid
fileReference still downloads the input file — there is no validation
step that rejects it before resource use, refuting the short-circuit
claim. -/
theorem c7_validation_counterexample :
    (process_finance_operation goodWorld okFlags none
      ⟨some "exec-1", some "op-1", none, some ⟨"uploads/in.csv"⟩, none⟩).staging.downloaded
      = true
    ∧ (resultsOf (process_finance_operation goodWorld okFlags none
        ⟨some "exec-1", some "op-1", none, some ⟨"uploads/in.csv"⟩, none⟩)).map
          resultsSuccess = some false :=
  ⟨rfl, rfl⟩

/-- C7 amended: the handler performs no validation.  A missing
fileReference surfaces as a TypeError from the download helper, escaping
to the outer handler: the response is the 500 envelope, nothing was
downloaded or launched, and the notifier is still invoked once.  A
missing scriptPath on a present fileReference is detected only inside
the Script Runner after the input file has been downloaded, yielding a
handled failure result (no subprocess is launched).  Neither case
produces a distinguished InvalidRequest failure before resource use. -/
theorem c7_no_validation_amended (w : World) (cf : CleanupFlags) (d : Option Nat)
    (req : JobRequest) :
    (req.fileReference = none →
        (process_finance_operation w cf d req).response.code = 500
      ∧ (process_finance_operation w cf d req).staging.downloaded = false
      ∧ (process_finance_operation w cf d req).staging.tempCreated = false
      ∧ (process_finance_operation w cf d req).staging.launched = false
      ∧ (process_finance_operation w cf d req).webhooks.length = 1)
    ∧ (∀ fr, req.fileReference = some fr → w.downloadOk = true → req.scriptPath = none →
        (process_finance_operation w cf d req).staging.downloaded = true
      ∧ (process_finance_operation w cf d req).staging.launched = false
      ∧ resultsOf (process_finance_operation w cf d req)
          = some (.failed "Processing failed" [joinTypeErrMsg] "" "" none)) := by
  constructor
  · intro hfr
    have hw : process_finance_operation w cf d req
        = excOutcome req subscriptTypeErrMsg ⟨false, false, false, false, false, false⟩ := by
      unfold process_finance_operation processCore
      rw [hfr]
      rfl
    rw [hw]
    exact ⟨rfl, rfl, rfl, rfl, rfl⟩
  · intro fr hfr hdl hsp
    have hsr : execute_script w req.scriptPath w.tempName req.executionId
        = ⟨false, none, none, none, some joinTypeErrMsg⟩ := by
      rw [hsp]
      rfl
    have hpc := processCore_script_fail w req fr hfr hdl (by rw [hsr])
    rw [hsr] at hpc
    have hw : process_finance_operation w cf d req
        = { processCore w req with staging := cleanup cf (processCore w req).staging } := by
      unfold process_finance_operation
      rw [if_pos (by rw [hpc]; rfl)]
    refine ⟨?_, ?_, ?_⟩
    · rw [hw]
      show (cleanup cf (processCore w req).staging).downloaded = true
      rw [(cleanup_projections cf _).2.2.1, hpc]
      rfl
    · rw [hw]
      show (cleanup cf (processCore w req).staging).launched = false
      rw [(cleanup_projections cf _).2.2.2, hpc]
      show (req.scriptPath.isSome && w.scriptExists && req.executionId.isSome) = false
      rw [hsp]
      rfl
    · exact resultsOf_eq_of_response _ req.executionId "failed" _ 200
        (by rw [process_response, hpc]; rfl)

/-- Witness for C7 amended at concrete inputs: a request missing its
fileReference (500 path, nothing downloaded, one notifier invocation)
and a request missing its scriptPath (downloaded, not launched). -/
theorem c7_no_validation_amended_witness :
    (process_finance_operation goodWorld okFlags none
      ⟨some "exec-1", some "op-1", some "stripe_balance_payout.py", none, none⟩).response.code
      = 500
    ∧ (process_finance_operation goodWorld okFlags none
        ⟨some "exec-1", some "op-1", some "stripe_balance_payout.py", none, none⟩).staging.downloaded
      = false
    ∧ (process_finance_operation goodWorld okFlags none
        ⟨some "exec-1", some "op-1", none, some ⟨"uploads/in.csv"⟩, none⟩).staging.downloaded
      = true
    ∧ resultsOf (process_finance_operation goodWorld okFlags none
        ⟨some "exec-1", some "op-1", none, some ⟨"uploads/in.csv"⟩, none⟩)
        = some (.failed "Processing failed" [joinTypeErrMsg] "" "" none) :=
  ⟨((c7_no_validation_amended goodWorld okFlags none
      ⟨some "exec-1", some "op-1", some "stripe_balance_payout.py", none, none⟩).1 rfl).1,
   ((c7_no_validation_amended goodWorld okFlags none
      ⟨some "exec-1", some "op-1", some "stripe_balance_payout.py", none, none⟩).1 rfl).2.1,
   ((c7_no_validation_amended goodWorld okFlags none
      ⟨some "exec-1", some "op-1", none, some ⟨"uploads/in.csv"⟩, none⟩).2
      ⟨"uploads/in.csv"⟩ rfl rfl rfl).1,
   ((c7_no_validation_amended goodWorld okFlags none
      ⟨some "exec-1", some "op-1", none, some ⟨"uploads/in.csv"⟩, none⟩).2
      ⟨"uploads/in.csv"⟩ rfl rfl rfl).2.2⟩

/-- C8: for every completed script execution, exit code 0 yields an
outcome with `success: true`, and any non-zero exit code yields
`success: false` with that exit code recorded; a non-zero exit does not
abort the pipeline but produces a handled failure job result carrying
the captured stdout, stderr and exit code as diagnostic data. -/
theorem c8_exit_code_semantics (w : World) (cf : CleanupFlags) (d : Option Nat)
    (req : JobRequest) (fr : FileReference) (sp eid : String) (rc : Int)
    (out err : String)
    (hfr : req.fileReference = some fr) (hdl : w.downloadOk = true)
    (hsp : req.scriptPath = some sp) (hex : w.scriptExists = true)
    (hei : req.executionId = some eid)
    (hrun : w.run = .completed rc out err) :
    (execute_script w req.scriptPath w.tempName req.executionId).success = (rc == 0)
    ∧ (execute_script w req.scriptPath w.tempName req.executionId).returncode = some rc
    ∧ (execute_script w req.scriptPath w.tempName req.executionId).stdout = some out
    ∧ (execute_script w req.scriptPath w.tempName req.executionId).stderr = some err
    ∧ (rc ≠ 0 →
        (process_finance_operation w cf d req).response.code = 200
      ∧ resultsOf (process_finance_operation w cf d req)
          = some (.failed "Processing failed" ["Unknown error"] out err (some rc))) := by
  have hsr : execute_script w req.scriptPath w.tempName req.executionId
      = ⟨rc == 0, some out, some err, some rc, none⟩ := by
    rw [hsp, hei]
    simp [execute_script, hex, hrun]
  refine ⟨by rw [hsr], by rw [hsr], by rw [hsr], by rw [hsr], ?_⟩
  intro hrc
  have hsf : (execute_script w req.scriptPath w.tempName req.executionId).success = false := by
    rw [hsr]
    exact beq_eq_false_iff_ne.mpr hrc
  have hpc := processCore_script_fail w req fr hfr hdl hsf
  rw [hsr] at hpc
  constructor
  · rw [process_response, hpc]
    rfl
  · exact resultsOf_eq_of_response _ req.executionId "failed" _ 200
      (by rw [process_response, hpc]; rfl)

/-- Witness for C8 at a concrete non-zero exit (code 2). -/
theorem c8_exit_code_semantics_witness :
    (execute_script {goodWorld with run := .completed 2 "some out" "boom"}
      goodReq.scriptPath ({goodWorld with run := .completed 2 "some out" "boom"} :
        World).tempName goodReq.executionId).returncode = some 2
    ∧ (process_finance_operation {goodWorld with run := .completed 2 "some out" "boom"}
        okFlags none goodReq).response.code = 200
    ∧ resultsOf (process_finance_operation
        {goodWorld with run := .completed 2 "some out" "boom"} okFlags none goodReq)
        = some (.failed "Processing failed" ["Unknown error"] "some out" "boom" (some 2)) :=
  ⟨(c8_exit_code_semantics {goodWorld with run := .completed 2 "some out" "boom"} okFlags
      none goodReq ⟨"uploads/in.csv"⟩ "stripe_balance_payout.py" "exec-1" 2 "some out"
      "boom" rfl rfl rfl rfl rfl rfl).2.1,
   ((c8_exit_code_semantics {goodWorld with run := .completed 2 "some out" "boom"} okFlags
      none goodReq ⟨"uploads/in.csv"⟩ "stripe_balance_payout.py" "exec-1" 2 "some out"
      "boom" rfl rfl rfl rfl rfl rfl).2.2.2.2 (by decide)).1,
   ((c8_exit_code_semantics {goodWorld with run := .completed 2 "some out" "boom"} okFlags
      none goodReq ⟨"uploads/in.csv"⟩ "stripe_balance_payout.py" "exec-1" 2 "some out"
      "boom" rfl rfl rfl rfl rfl rfl).2.2.2.2 (by decide)).2⟩

/-- C9: for every scriptName that does not resolve to a file in the
scripts directory, the Script Runner returns a captured failure
(`success: false` with the not-found message as the failure reason) and
the resolution failure never escapes as an exception: the pipeline
proceeds to the handled 200 failure envelope, not a crash. -/
theorem c9_script_not_found (w : World) (cf : CleanupFlags) (d : Option Nat)
    (req : JobRequest) (sp : String) (fr : FileReference)
    (hsp : req.scriptPath = some sp) (hex : w.scriptExists = false)
    (hfr : req.fileReference = some fr) (hdl : w.downloadOk = true) :
    (execute_script w req.scriptPath w.tempName req.executionId).success = false
    ∧ (execute_script w req.scriptPath w.tempName req.executionId).error
        = some ("Script not found: " ++ pyJoin "/app/scripts" sp)
    ∧ (process_finance_operation w cf d req).response.code = 200
    ∧ resultsOf (process_finance_operation w cf d req)
        = some (.failed "Processing failed"
            ["Script not found: " ++ pyJoin "/app/scripts" sp] "" "" none) := by
  have hsr : execute_script w req.scriptPath w.tempName req.executionId
      = ⟨false, none, none, none, some ("Script not found: " ++ pyJoin "/app/scripts" sp)⟩ := by
    rw [hsp]
    simp [execute_script, hex]
  have hpc := processCore_script_fail w req fr hfr hdl (by rw [hsr])
  rw [hsr] at hpc
  refine ⟨by rw [hsr], by rw [hsr], ?_, ?_⟩
  · rw [process_response, hpc]
    rfl
  · exact resultsOf_eq_of_response _ req.executionId "failed" _ 200
      (by rw [process_response, hpc]; rfl)

/-- Witness for C9 at a concrete unresolvable script name. -/
theorem c9_script_not_found_witness :
    (execute_script {goodWorld with scriptExists := false} goodReq.scriptPath
      ({goodWorld with scriptExists := false} : World).tempName goodReq.executionId).success
      = false
    ∧ (process_finance_operation {goodWorld with scriptExists := false} okFlags none
        goodReq).response.code = 200
    ∧ resultsOf (process_finance_operation {goodWorld with scriptExists := false} okFlags
        none goodReq)
        = some (.failed "Processing failed"
            ["Script not found: " ++ pyJoin "/app/scripts" "stripe_balance_payout.py"]
            "" "" none) :=
  ⟨(c9_script_not_found {goodWorld with scriptExists := false} okFlags none goodReq
      "stripe_balance_payout.py" ⟨"uploads/in.csv"⟩ rfl rfl rfl rfl).1,
   (c9_script_not_found {goodWorld with scriptExists := false} okFlags none goodReq
      "stripe_balance_payout.py" ⟨"uploads/in.csv"⟩ rfl rfl rfl rfl).2.2.1,
   (c9_script_not_found {goodWorld with scriptExists := false} okFlags none goodReq
      "stripe_balance_payout.py" ⟨"uploads/in.csv"⟩ rfl rfl rfl rfl).2.2.2⟩

/-- C10: for every success-path job result (script exited 0, metrics
parsed to a mapping), the result always contains the well-known keys:
`recordsProcessed`, `recordsSuccessful` and `recordsFailed` defaulting
to 0 when absent from the parsed metrics, and `mocked` defaulting to
false when absent — even when the metrics mapping is empty. -/
theorem c10_success_defaults (w : World) (cf : CleanupFlags) (d : Option Nat)
    (req : JobRequest) (fr : FileReference) (sp eid : String) (stdout errS : String)
    (fields : List (List Char × J))
    (hfr : req.fileReference = some fr) (hdl : w.downloadOk = true)
    (hsp : req.scriptPath = some sp) (hex : w.scriptExists = true)
    (hei : req.executionId = some eid)
    (hrun : w.run = .completed 0 stdout errS)
    (hup : w.resultFileExists = true → w.uploadOk = true)
    (hm : metricsOf stdout = .obj fields) :
    ((resultsOf (process_finance_operation w cf d req)).bind okRecordsProcessed).isSome = true
    ∧ ((resultsOf (process_finance_operation w cf d req)).bind okRecordsSuccessful).isSome = true
    ∧ ((resultsOf (process_finance_operation w cf d req)).bind okRecordsFailed).isSome = true
    ∧ ((resultsOf (process_finance_operation w cf d req)).bind okMocked).isSome = true
    ∧ (dGet fields ("recordsProcessed".data) = none →
        (resultsOf (process_finance_operation w cf d req)).bind okRecordsProcessed
          = some (.num 0))
    ∧ (dGet fields ("recordsSuccessful".data) = none →
        (resultsOf (process_finance_operation w cf d req)).bind okRecordsSuccessful
          = some (.num 0))
    ∧ (dGet fields ("recordsFailed".data) = none →
        (resultsOf (process_finance_operation w cf d req)).bind okRecordsFailed
          = some (.num 0))
    ∧ (dGet fields ("mocked".data) = none →
        (resultsOf (process_finance_operation w cf d req)).bind okMocked
          = some (.bool false)) := by
  have H := (success_pipeline w cf d req fr sp eid stdout errS
    hfr hdl hsp hex hei hrun hup).1 fields hm
  refine ⟨?_, ?_, ?_, ?_, ?_, ?_, ?_, ?_⟩
  · rw [H.2.2.2.1]
    rfl
  · rw [H.2.2.2.2.1]
    rfl
  · rw [H.2.2.2.2.2.1]
    rfl
  · rw [H.2.2.2.2.2.2]
    rfl
  · intro h
    rw [H.2.2.2.1, h]
    rfl
  · intro h
    rw [H.2.2.2.2.1, h]
    rfl
  · intro h
    rw [H.2.2.2.2.2.1, h]
    rfl
  · intro h
    rw [H.2.2.2.2.2.2, h]
    rfl

/-- Witness for C10 with an empty metrics mapping (empty stdout): all
four defaults appear. -/
theorem c10_success_defaults_witness :
    (resultsOf (process_finance_operation goodWorld okFlags none goodReq)).bind
      okRecordsProcessed = some (.num 0)
    ∧ (resultsOf (process_finance_operation goodWorld okFlags none goodReq)).bind
        okRecordsSuccessful = some (.num 0)
    ∧ (resultsOf (process_finance_operation goodWorld okFlags none goodReq)).bind
        okRecordsFailed = some (.num 0)
    ∧ (resultsOf (process_finance_operation goodWorld okFlags none goodReq)).bind
        okMocked = some (.bool false) :=
  ⟨(c10_success_defaults goodWorld okFlags none goodReq ⟨"uploads/in.csv"⟩
      "stripe_balance_payout.py" "exec-1" "" "" []
      rfl rfl rfl rfl rfl rfl (fun _ => rfl) rfl).2.2.2.2.1 rfl,
   (c10_success_defaults goodWorld okFlags none goodReq ⟨"uploads/in.csv"⟩
      "stripe_balance_payout.py" "exec-1" "" "" []
      rfl rfl rfl rfl rfl rfl (fun _ => rfl) rfl).2.2.2.2.2.1 rfl,
   (c10_success_defaults goodWorld okFlags none goodReq ⟨"uploads/in.csv"⟩
      "stripe_balance_payout.py" "exec-1" "" "" []
      rfl rfl rfl rfl rfl rfl (fun _ => rfl) rfl).2.2.2.2.2.2.1 rfl,
   (c10_success_defaults goodWorld okFlags none goodReq ⟨"uploads/in.csv"⟩
      "stripe_balance_payout.py" "exec-1" "" "" []
      rfl rfl rfl rfl rfl rfl (fun _ => rfl) rfl).2.2.2.2.2.2.2 rfl⟩

end FinOps
